import Mathlib

/-!
# Verification of the OceanView-v2 Gatekeeper training-to-artifact pipeline

Shallow embedding of the `ml/` scripts of the repository:

* `create_dummy_onnx.py` — minimal identity graph, opset 22, IR 10.
* `create_model.py` — sklearn logistic regression converted via skl2onnx.
* `create_onnx_model.py` — synthetic dataset + pickled model package.
* `create_valid_onnx.py` — `create_model`: MatMul/Add/Softmax graph with
  random weights; `__main__` additionally appends 100 KiB of padding to the
  saved file.
* `train_gatekeeper.py` — CSV loader, seeded split, logistic fit with
  balanced class weights, ROC-AUC metric, skl2onnx export with a raw
  `PLACEHOLDER_MODEL` fallback file on serialization failure.
* `train_gatekeeper_simple.py` — Constant→Identity graph that always
  outputs 0.7, opset 22, IR 10.

Machine floats are modelled as exact rationals (ℚ) or reals (ℝ); the ONNX
graph structures are embedded as explicit record values mirroring the
`helper.make_*` calls of the source.
-/

namespace OceanView

/-- A (possibly batch-polymorphic) tensor shape: `none` is a symbolic/batch
dimension (`None` in the Python shape lists), `some n` a fixed dimension. -/
abbrev Dims := List (Option Nat)

/-- `helper.make_tensor_value_info(name, dtype, shape)`. -/
structure TensorInfo where
  tname : String
  dtype : String
  dims : Dims
deriving Repr, DecidableEq

/-- A 2-D (or, with a single row, 1-D) tensor value with entries in `α`. -/
abbrev Mat (α : Type) := List (List α)

/-- `helper.make_node(op_type, inputs, outputs, name, ...)`.  `constValue`
holds the `value` attribute of a `Constant` node; `axisAttr` the `axis`
attribute of a `Softmax` node. -/
structure NodeDef (α : Type) where
  opType : String
  ninputs : List String
  noutputs : List String
  nname : String := ""
  constValue : Option (Mat α) := none
  axisAttr : Option Nat := none
deriving Repr, DecidableEq

/-- `numpy_helper.from_array(arr, name)` used as a graph initializer:
a named constant tensor with its numpy shape and its entries. -/
structure InitTensor (α : Type) where
  iname : String
  idims : List Nat
  value : Mat α
deriving Repr, DecidableEq

/-- `helper.make_graph(nodes, name, inputs, outputs, initializers)`. -/
structure GraphDef (α : Type) where
  gnodes : List (NodeDef α)
  gname : String
  ginputs : List TensorInfo
  goutputs : List TensorInfo
  ginitializers : List (InitTensor α) := []
deriving Repr, DecidableEq

/-- `helper.make_opsetid(domain, version)`. -/
structure OpsetId where
  domain : String
  version : Nat
deriving Repr, DecidableEq

/-- `helper.make_model(graph, producer_name, [opset_imports])` plus the
optional assignment `model.ir_version = …`.  A `none` in `opsetImports`
or `irVersion` means the script did not pass/assign the field, leaving it
at the serialization library's default. -/
structure ModelDef (α : Type) where
  graph : GraphDef α
  producerName : String
  opsetImports : Option (List OpsetId) := none
  irVersion : Option Nat := none
deriving Repr, DecidableEq

/-! ## The three hand-built ONNX graphs of the repository -/

/-- `create_valid_onnx.py`, `create_model` (lines 14-69): graph part.
The weight matrix (numpy shape (4,2)) and bias (shape (2,)) are
`np.random.randn` draws; their entries are parameters `w`, `b` here. -/
def create_model_graph {α : Type} (w b : Mat α) : GraphDef α :=
  { gnodes :=
      [ { opType := "MatMul", ninputs := ["float_input", "weights"],
          noutputs := ["matmul_output"], nname := "matmul" },
        { opType := "Add", ninputs := ["matmul_output", "bias"],
          noutputs := ["add_output"], nname := "add" },
        { opType := "Softmax", ninputs := ["add_output"],
          noutputs := ["output"], nname := "softmax", axisAttr := some 1 } ],
    gname := "gatekeeper_model",
    ginputs := [{ tname := "float_input", dtype := "FLOAT", dims := [none, some 4] }],
    goutputs := [{ tname := "output", dtype := "FLOAT", dims := [none, some 2] }],
    ginitializers :=
      [ { iname := "weights", idims := [4, 2], value := w },
        { iname := "bias", idims := [2], value := b } ] }

/-- `create_valid_onnx.py`, `create_model`: the model built with
`helper.make_model(graph, producer_name='OceanView-Gatekeeper')` — no
`opset_imports` argument and no `ir_version` assignment. -/
def create_model_valid_onnx {α : Type} (w b : Mat α) : ModelDef α :=
  { graph := create_model_graph w b,
    producerName := "OceanView-Gatekeeper",
    opsetImports := none,
    irVersion := none }

/-- `train_gatekeeper_simple.py`, `main` (lines 27-58): graph part.
Input `x` of shape (1,6), output `y` of shape (1,1); a `Constant` node
producing the 1×1 tensor `[[0.7]]` fed through an `Identity` node. -/
def gatekeeper_simple_graph : GraphDef ℚ :=
  { gnodes :=
      [ { opType := "Constant", ninputs := [], noutputs := ["constant"],
          constValue := some [[7/10]] },
        { opType := "Identity", ninputs := ["constant"], noutputs := ["y"] } ],
    gname := "GatekeeperModel",
    ginputs := [{ tname := "x", dtype := "FLOAT", dims := [some 1, some 6] }],
    goutputs := [{ tname := "y", dtype := "FLOAT", dims := [some 1, some 1] }] }

/-- `train_gatekeeper_simple.py`, `main` (lines 60-65): model with
`opset_imports=[make_opsetid("", 22)]` and `ir_version = 10`. -/
def gatekeeper_simple_model : ModelDef ℚ :=
  { graph := gatekeeper_simple_graph,
    producerName := "gatekeeper-model",
    opsetImports := some [{ domain := "", version := 22 }],
    irVersion := some 10 }

/-- `create_dummy_onnx.py`: identity graph, input and output both (1,6). -/
def dummy_graph : GraphDef ℚ :=
  { gnodes := [ { opType := "Identity", ninputs := ["x"], noutputs := ["y"] } ],
    gname := "MinimalIdentityGraph",
    ginputs := [{ tname := "x", dtype := "FLOAT", dims := [some 1, some 6] }],
    goutputs := [{ tname := "y", dtype := "FLOAT", dims := [some 1, some 6] }] }

/-- `create_dummy_onnx.py`: model with opset 22 and `ir_version = 10`. -/
def dummy_model : ModelDef ℚ :=
  { graph := dummy_graph,
    producerName := "onnx-placeholder",
    opsetImports := some [{ domain := "", version := 22 }],
    irVersion := some 10 }

/-! ## Graph evaluation

A small operational semantics for the five operators the repository's
graphs use (`Identity`, `Constant`, `MatMul`, `Add`, `Softmax`), faithful
to ONNX semantics on the shapes that occur here.  `e` is the scalar
exponential used by `Softmax` (instantiated with `Real.exp` over ℝ). -/

variable {α : Type}

/-- Dot product of two rows. -/
def dotRow [Mul α] [Add α] [Zero α] (xs ys : List α) : α :=
  (List.zipWith (· * ·) xs ys).sum

/-- Column `j` of a matrix. -/
def matCol [Zero α] (m : Mat α) (j : Nat) : List α :=
  m.map (fun row => row.getD j 0)

/-- `MatMul` of an (m,k) by a (k,n) matrix. -/
def matMul [Mul α] [Add α] [Zero α] (a b : Mat α) : Mat α :=
  a.map (fun row => (List.range (b.headD []).length).map
    (fun j => dotRow row (matCol b j)))

/-- ONNX `Add` with unidirectional broadcasting of a 1-row second operand
(the (2,) bias against the (batch,2) logits). -/
def addBroadcast [Add α] (a b : Mat α) : Mat α :=
  match b with
  | [brow] => a.map (fun row => List.zipWith (· + ·) row brow)
  | _ => List.zipWith (List.zipWith (· + ·)) a b

/-- Row-wise `Softmax` (`axis=1`) with scalar exponential `e`. -/
def softmaxRows [Add α] [Mul α] [Div α] [Zero α] (e : α → α) (a : Mat α) : Mat α :=
  a.map (fun row =>
    let exps := row.map e
    exps.map (fun v => v / exps.sum))

/-- Tensor environment during evaluation: name ↦ current value. -/
abbrev Env (α : Type) := List (String × Mat α)

/-- Look a tensor name up in the environment. -/
def lookupEnv (env : Env α) (k : String) : Option (Mat α) :=
  (env.find? (fun p => p.1 == k)).map Prod.snd

/-- Apply one operator to its resolved argument values. -/
def applyOp [Mul α] [Add α] [Div α] [Zero α] (e : α → α)
    (n : NodeDef α) (args : List (Mat α)) : Option (Mat α) :=
  match n.opType, args with
  | "Identity", [v] => some v
  | "Constant", [] => n.constValue
  | "MatMul", [a, b] => some (matMul a b)
  | "Add", [a, b] => some (addBroadcast a b)
  | "Softmax", [a] => some (softmaxRows e a)
  | _, _ => none

/-- Run the node list in order, extending the environment. -/
def evalNodes [Mul α] [Add α] [Div α] [Zero α] (e : α → α) :
    List (NodeDef α) → Env α → Option (Env α)
  | [], env => some env
  | n :: ns, env => do
      let args ← n.ninputs.mapM (lookupEnv env)
      let out ← applyOp e n args
      match n.noutputs with
      | [o] => evalNodes e ns ((o, out) :: env)
      | _ => none

/-- Evaluate a single-input graph on input value `x`: bind the declared
input name to `x`, preload the initializers, run the nodes, and read the
declared output name. -/
def evalGraph [Mul α] [Add α] [Div α] [Zero α] (e : α → α)
    (g : GraphDef α) (x : Mat α) : Option (Mat α) :=
  match g.ginputs, g.goutputs with
  | [inp], [outp] => do
      let env0 : Env α :=
        (inp.tname, x) :: g.ginitializers.map (fun t => (t.iname, t.value))
      let env ← evalNodes e g.gnodes env0
      lookupEnv env outp.tname
  | _, _ => none

/-! ## Decision policy

`create_onnx_model.py`, line 34: `score = sum((y_test == 1) & (y_pred_proba
> 0.5)) / sum(y_test == 1)` — the only probability-thresholding in the
repository.  The threshold is the literal `0.5` and the comparison is the
strict `>`. -/

/-- The hard-coded probability threshold `0.5`. -/
def decisionThreshold : ℚ := 1/2

/-- The per-prediction thresholding `y_pred_proba > 0.5` from
`create_onnx_model.py` line 34: `true` = the prediction counts as an
approval. -/
def approveSignal (p : ℚ) : Bool := decide (p > decisionThreshold)

/-! ## Dataset loading (`train_gatekeeper.py`, lines 35-50) -/

/-- A parsed dataset row: the four selected feature columns
(`rsi14`, `fastMA`, `slowMA`, `smcPattern`) and the binary `label`. -/
abbrev LabeledExample := List ℚ × Bool

/-- The parsed content of a `data_export.csv` file. -/
abbrev Dataset := List LabeledExample

/-- `train_gatekeeper.py` lines 37-42: read `ml/data_export.csv`, and on
`FileNotFoundError` read `data_export.csv` instead.  Each argument is
`some` the parsed file when the file exists, else `none`. -/
def load_dataset (mlCsv rootCsv : Option Dataset) : Option Dataset :=
  mlCsv.orElse (fun _ => rootCsv)

/-- The keyword arguments of the `make_classification` call in
`create_onnx_model.py` lines 16-24. -/
structure SyntheticArgs where
  nSamples : Nat
  nFeatures : Nat
  nInformative : Nat
  nRedundant : Nat
  nClustersPerClass : Nat
  randomState : Nat
deriving Repr, DecidableEq

/-- `make_classification(n_samples=1000, n_features=6, n_informative=6,
n_redundant=0, n_clusters_per_class=1, random_state=42)` from
`create_onnx_model.py` — called unconditionally (that script never reads a
dataset file). -/
def make_classification_args : SyntheticArgs :=
  { nSamples := 1000, nFeatures := 6, nInformative := 6,
    nRedundant := 0, nClustersPerClass := 1, randomState := 42 }

/-! ## Seeded split and deterministic fit (`train_gatekeeper.py`, 56-63)

`train_test_split(X, y, test_size=0.2, random_state=42)` and
`LogisticRegression(class_weight='balanced').fit` are deterministic
functions of their arguments (sklearn's shuffle is driven entirely by the
`random_state` seed, and the lbfgs fit has no other randomness).  They are
modelled by an explicit seeded pseudo-random shuffle and an explicit
fixed-iteration weighted fit, so that the whole trainer is a function of
(dataset, seed, split fraction) alone. -/

/-- A linear-congruential step, the pseudo-random source of the modelled
seeded shuffle. -/
def lcgStep (s : Nat) : Nat := (1103515245 * s + 12345) % 2147483648

/-- Sort key assigned to position `i` of the list under seed `seed`. -/
def shuffleRank (seed i : Nat) : Nat := lcgStep (seed + 1103515245 * i)

/-- Insertion into a key-sorted association list. -/
def insertByKey {β : Type} (x : Nat × β) : List (Nat × β) → List (Nat × β)
  | [] => [x]
  | y :: ys => if x.1 ≤ y.1 then x :: y :: ys else y :: insertByKey x ys

/-- Insertion sort by key. -/
def sortByKey {β : Type} : List (Nat × β) → List (Nat × β)
  | [] => []
  | x :: xs => insertByKey x (sortByKey xs)

/-- Deterministic seeded shuffle: tag each element with a seed-derived
rank and sort by it. -/
def shuffleSeeded {β : Type} (seed : Nat) (l : List β) : List β :=
  (sortByKey (l.enum.map (fun p => (shuffleRank seed p.1, p.2)))).map Prod.snd

/-- `train_test_split(..., test_size=0.2, random_state=seed)`:
seeded shuffle, then an 80/20 split into (train, test). -/
def train_test_split {β : Type} (data : List β) (seed : Nat) : List β × List β :=
  let shuffled := shuffleSeeded seed data
  let nTest := data.length / 5
  (shuffled.drop nTest, shuffled.take nTest)

/-- `class_weight='balanced'`: weight of class `c` is
`n_samples / (n_classes * count_c)` with `n_classes = 2`. -/
def classWeight (examples : List LabeledExample) (c : Bool) : ℚ :=
  ((examples.length : ℚ)) / (2 * ((examples.filter (fun e => e.2 == c)).length : ℚ))

/-- A rational sigmoidal link standing in for the machine sigmoid inside
the logistic fit (exact `exp` is irrelevant to the properties proved
about the trainer). -/
def sigmoidApprox (z : ℚ) : ℚ := 1/2 + z / (2 * (1 + |z|))

/-- The Trainer's product: per-feature coefficients plus an intercept. -/
structure FittedModel where
  coef : List ℚ
  intercept : ℚ
deriving Repr, DecidableEq

/-- Linear score `coef · x + intercept`. -/
def linScore (m : FittedModel) (x : List ℚ) : ℚ := dotRow m.coef x + m.intercept

/-- One weighted gradient step of the logistic fit. -/
def gradStep (examples : List LabeledExample) (wts : Bool → ℚ) (lr : ℚ)
    (m : FittedModel) : FittedModel :=
  let errs := examples.map (fun e =>
    (e.1, wts e.2 * (sigmoidApprox (linScore m e.1) - (if e.2 then 1 else 0))))
  let gradCoef := errs.foldl
    (fun acc p => List.zipWith (fun a xi => a + p.2 * xi) acc p.1)
    (m.coef.map (fun _ => 0))
  { coef := List.zipWith (fun c g => c - lr * g) m.coef gradCoef,
    intercept := m.intercept - lr * (errs.map Prod.snd).sum }

/-- `LogisticRegression(class_weight='balanced').fit`: balanced class
weights computed from the training labels, then a fixed number of
deterministic gradient steps from the zero model (4 features). -/
def fitLogisticBalanced (examples : List LabeledExample) : FittedModel :=
  (List.range 25).foldl
    (fun m _ => gradStep examples (classWeight examples) (1/100) m)
    { coef := List.replicate 4 0, intercept := 0 }

/-- `predict_proba(...)[:, 1]`: approve-probability of each test row. -/
def predictProba (m : FittedModel) (xs : List (List ℚ)) : List ℚ :=
  xs.map (fun x => sigmoidApprox (linScore m x))

/-- The trainer portion of `train_gatekeeper.py` `main` (lines 56-63):
split with `random_state=42`, fit on the training partition.  The
`ambientEntropy` argument models any entropy the process could have drawn
from its environment; the source never consults it (the seed is the
literal 42), so it is unused. -/
def run_trainer (ambientEntropy : Nat) (data : Dataset) : FittedModel :=
  fitLogisticBalanced (train_test_split data 42).1

/-! ## ROC-AUC metric (`train_gatekeeper.py`, lines 69-71) -/

/-- Mann–Whitney pair score used by the AUC. -/
def aucPairScore (si sj : ℚ) : ℚ := if sj < si then 1 else if si = sj then 1/2 else 0

/-- AUC of scored labels: normalized count of correctly ordered
(positive, negative) pairs. -/
def aucValue (pairs : List (Bool × ℚ)) : ℚ :=
  let pos := (pairs.filter (fun p => p.1)).map Prod.snd
  let neg := (pairs.filter (fun p => !p.1)).map Prod.snd
  ((pos.map (fun si => (neg.map (fun sj => aucPairScore si sj)).sum)).sum)
    / ((pos.length : ℚ) * (neg.length : ℚ))

/-- `sklearn.metrics.roc_auc_score(y_true, y_score)`: raises `ValueError`
when `y_true` holds a single class, else returns the AUC.  (Modelled from
sklearn's documented contract; the library is an external collaborator.) -/
def roc_auc_score (yTrue : List Bool) (yScore : List ℚ) : Except String ℚ :=
  if yTrue.all (fun b => b) || yTrue.all (fun b => !b) then
    Except.error "Only one class present in y_true. ROC AUC score is not defined in that case."
  else
    Except.ok (aucValue (yTrue.zip yScore))

/-- Outcome of the metrics lines 69-71 of `train_gatekeeper.py`:
`auc = roc_auc_score(y_test, y_pred_proba)` is not wrapped in any
try/except, so a `ValueError` propagates and aborts the run. -/
inductive MetricsResult
  | raised (msg : String)
  | reported (auc : ℚ)
deriving Repr, DecidableEq

/-- The metrics step of `main`. -/
def metrics_step (yTest : List Bool) (yPredProba : List ℚ) : MetricsResult :=
  match roc_auc_score yTest yPredProba with
  | Except.error m => MetricsResult.raised m
  | Except.ok a => MetricsResult.reported a

/-! ## Artifact writing and its fallback (`train_gatekeeper.py`, 88-114) -/

/-- Content of the file written at the output path: either a serialized
graph model or raw bytes (given as a string). -/
inductive FileBytes (α : Type)
  | serializedModel (m : ModelDef α)
  | raw (s : String)
deriving Repr, DecidableEq

/-- The export step of `main` (lines 88-114): try the skl2onnx conversion
and write its serialization; on any exception write the literal bytes
`b'PLACEHOLDER_MODEL'` instead.  `conversion` is the outcome of
`convert_sklearn` (an external library call). -/
def export_step (conversion : Except String (ModelDef ℚ)) : FileBytes ℚ :=
  match conversion with
  | Except.ok m => FileBytes.serializedModel m
  | Except.error _ => FileBytes.raw "PLACEHOLDER_MODEL"

/-- Both branches of the export step write to the caller-specified
`output_path`; the result is (path written, content written). -/
def export_write (outputPath : String) (conversion : Except String (ModelDef ℚ)) :
    String × FileBytes ℚ :=
  (outputPath, export_step conversion)

/-- The producer-metadata field of a written file, when the file is a
serialized model carrying one. -/
def producerField {α : Type} : FileBytes α → Option String
  | FileBytes.serializedModel m => some m.producerName
  | FileBytes.raw _ => none

/-! ## The whole `train_gatekeeper.py` `main` -/

/-- Result of one run of `train_gatekeeper.py` `main`. -/
inductive RunOutcome
  | abortedMissingDataset
  | raised (msg : String)
  | finished (writtenFile : String × FileBytes ℚ)
deriving Repr, DecidableEq

/-- `train_gatekeeper.py` `main`: load (`ml/` then root, lines 35-50;
missing → print and `return`), split with seed 42, fit, compute the AUC
(uncaught `ValueError` aborts), then export with the placeholder
fallback (lines 88-114). -/
def train_gatekeeper_main (mlCsv rootCsv : Option Dataset) (outputPath : String)
    (conversion : FittedModel → Except String (ModelDef ℚ)) : RunOutcome :=
  match load_dataset mlCsv rootCsv with
  | none => RunOutcome.abortedMissingDataset
  | some df =>
    let parts := train_test_split df 42
    let m := fitLogisticBalanced parts.1
    let proba := predictProba m (parts.2.map Prod.fst)
    match roc_auc_score (parts.2.map Prod.snd) proba with
    | Except.error msg => RunOutcome.raised msg
    | Except.ok _ => RunOutcome.finished (export_write outputPath (conversion m))

/-! ## Filesystem write traces -/

/-- Filesystem operations performed by the writers. -/
inductive FsOp
  | writeFile (path : String) (content : List Nat)
  | appendFile (path : String) (content : List Nat)
  | renameFile (src dst : String)
deriving Repr, DecidableEq

/-- `train_gatekeeper.py` lines 100-105 (and 111-113): a single direct
`open(output_path, 'wb')` + `write` at the final path, on both the
genuine and the fallback branch. -/
def train_gatekeeper_write_trace (outputPath : String) (bytes : List Nat) : List FsOp :=
  [FsOp.writeFile outputPath bytes]

/-- `create_valid_onnx.py` `__main__` (lines 75-92): `onnx.save(model,
"ml/gatekeeper_v1.onnx")`, then re-open the same path in append mode and
write 100 KiB of random padding. -/
def create_valid_onnx_write_trace (modelBytes paddingBytes : List Nat) : List FsOp :=
  [FsOp.writeFile "ml/gatekeeper_v1.onnx" modelBytes,
   FsOp.appendFile "ml/gatekeeper_v1.onnx" paddingBytes]

/-- Modelled from the spec: "write atomically (temp file + rename, or
equivalent) so a reader never observes a partial file" — no write or
append ever touches the final path directly, and exactly one rename
publishes the file there. -/
def atomicWriteThenRename (finalPath : String) (trace : List FsOp) : Bool :=
  trace.all (fun op => match op with
    | FsOp.writeFile p _ => p != finalPath
    | FsOp.appendFile p _ => p != finalPath
    | FsOp.renameFile _ _ => true)
  && (trace.filter (fun op => match op with
       | FsOp.renameFile _ dst => dst == finalPath
       | _ => false)).length == 1

/-- Content visible at `path` after a trace runs (`none` = no file). -/
def fileAfter (path : String) (trace : List FsOp) : Option (List Nat) :=
  trace.foldl (fun cur op =>
    match op with
    | FsOp.writeFile p c => if p == path then some c else cur
    | FsOp.appendFile p c => if p == path then some (cur.getD [] ++ c) else cur
    | FsOp.renameFile src _ => if src == path then none else cur) none

/-! ## Structural self-check and the claimed graph shape -/

/-- Resolve the node list in order: each node's declared inputs must
already be available (graph input, initializer, or a prior node's
output); returns all names produced. -/
def resolveNodes {α : Type} (avail : List String) : List (NodeDef α) → Option (List String)
  | [] => some avail
  | n :: ns =>
    if n.ninputs.all (fun i => avail.contains i) then
      resolveNodes (avail ++ n.noutputs) ns
    else none

/-- Modelled from the spec: the structural self-check the exporter runs
(`onnx.checker.check_model`, an external library): a single declared
input, a single declared output, every operation's declared inputs
resolve to prior outputs or constants (hence no cycles), and the declared
output is produced. -/
def structural_self_check {α : Type} (g : GraphDef α) : Bool :=
  g.ginputs.length == 1 && g.goutputs.length == 1 &&
  (match resolveNodes (g.ginputs.map (fun t => t.tname)
      ++ g.ginitializers.map (fun t => t.iname)) g.gnodes with
   | some names => g.goutputs.all (fun o => names.contains o.tname)
   | none => false)

/-- Modelled from the spec (claim C1's wording): exactly one declared
floating-point input of shape (batch, F), exactly one declared output of
shape (batch, 2), and a topological chain input → MatMul against a
constant (F,2) weight tensor → Add of a constant (2,) bias tensor →
Softmax → output (intermediate names arbitrary). -/
def claimC1Shape (F : Nat) (g : GraphDef ℚ) : Bool :=
  match g.ginputs, g.goutputs, g.gnodes with
  | [inp], [outp], [n1, n2, n3] =>
    inp.dtype == "FLOAT" && inp.dims == [none, some F] &&
    outp.dims == [none, some 2] &&
    n1.opType == "MatMul" && n2.opType == "Add" && n3.opType == "Softmax" &&
    (match n1.ninputs, n1.noutputs, n2.ninputs, n2.noutputs,
           n3.ninputs, n3.noutputs with
     | [a, wname], [m], [m2, bname], [ad], [ad2], [o] =>
        a == inp.tname && m2 == m && ad2 == ad && o == outp.tname &&
        g.ginitializers.any (fun t => t.iname == wname && t.idims == [F, 2]) &&
        g.ginitializers.any (fun t => t.iname == bname && t.idims == [2])
     | _, _, _, _, _, _ => false)
  | _, _, _ => false

/-- The producer name `convert_sklearn` stamps on the models it returns
(contract of the external skl2onnx library used by the genuine export
branch of `train_gatekeeper.py`). -/
def skl2onnx_producer : String := "skl2onnx"

/-- A model as returned by `convert_sklearn`: the converted graph with the
library's producer name (opset/IR left at library defaults). -/
def convert_sklearn_model (g : GraphDef ℚ) : ModelDef ℚ :=
  { graph := g, producerName := skl2onnx_producer }

/-! ## Theorems -/

/-- C1 (amended): the DecisionGraph built by `create_model` in
`create_valid_onnx.py` declares exactly one floating-point input of shape
(batch, 4) and exactly one output of shape (batch, 2), and is a
topological chain from the input through a MatMul against a constant
(4,2) weight tensor and an Add of a constant (2,) bias tensor to a
Softmax producing the output; it also passes the structural self-check.
(The graph exported by `train_gatekeeper_simple.py` does not have this
form — see the counterexample.) -/
theorem create_model_graph_is_chain (w b : Mat ℚ) :
    claimC1Shape 4 (create_model_graph w b) = true ∧
    structural_self_check (create_model_graph w b) = true ∧
    (create_model_graph w b).ginputs =
      [{ tname := "float_input", dtype := "FLOAT", dims := [none, some 4] }] ∧
    (create_model_graph w b).goutputs =
      [{ tname := "output", dtype := "FLOAT", dims := [none, some 2] }] ∧
    ((create_model_graph w b).gnodes.map fun n => n.opType) =
      ["MatMul", "Add", "Softmax"] ∧
    ((create_model_graph w b).ginitializers.map fun t => (t.iname, t.idims)) =
      [("weights", [4, 2]), ("bias", [2])] :=
  ⟨rfl, rfl, rfl, rfl, rfl, rfl⟩

/-- C1 counterexample: the graph exported by `train_gatekeeper_simple.py`
(one of the export entry points) is not of the claimed shape at its own
declared feature count 6: its output tensor has shape (1,1), not
(batch,2), and its nodes are Constant → Identity, with no MatMul, Add or
Softmax. -/
theorem gatekeeper_simple_not_claimed_shape :
    claimC1Shape 6 gatekeeper_simple_graph = false ∧
    (gatekeeper_simple_graph.gnodes.map fun n => n.opType) = ["Constant", "Identity"] ∧
    gatekeeper_simple_graph.goutputs =
      [{ tname := "y", dtype := "FLOAT", dims := [some 1, some 1] }] :=
  ⟨rfl, rfl, rfl⟩

/-- C3 (amended): the models built by `train_gatekeeper_simple.py` and
`create_dummy_onnx.py` are stamped with operator-set version 22 and IR
version 10, but the model built by `create_valid_onnx.py`'s
`create_model` leaves both fields at the serialization library's
defaults. -/
theorem version_stamping_per_variant :
    gatekeeper_simple_model.opsetImports = some [{ domain := "", version := 22 }] ∧
    gatekeeper_simple_model.irVersion = some 10 ∧
    dummy_model.opsetImports = some [{ domain := "", version := 22 }] ∧
    dummy_model.irVersion = some 10 ∧
    (∀ w b : Mat ℚ, (create_model_valid_onnx w b).opsetImports = none ∧
      (create_model_valid_onnx w b).irVersion = none) :=
  ⟨rfl, rfl, rfl, rfl, fun _ _ => ⟨rfl, rfl⟩⟩

/-- C3 counterexample: the artifact produced by the `create_valid_onnx.py`
export step (here at concrete weight/bias values) has its operator-set
and IR-version fields left at the library defaults (`helper.make_model`
is called without `opset_imports` and `ir_version` is never assigned),
refuting "every artifact ... never left at the serialization library's
defaults". -/
theorem create_valid_onnx_versions_defaulted :
    (create_model_valid_onnx ([[0]] : Mat ℚ) [[0]]).opsetImports = none ∧
    (create_model_valid_onnx ([[0]] : Mat ℚ) [[0]]).irVersion = none :=
  ⟨rfl, rfl⟩

/-- C4 counterexample: at the code's threshold 0.5 the probability 0.50 is
not approved (the source compares with strict `>`), refuting "p = 0.50
yields approve" and hence "approve if and only if p ≥ t". -/
theorem threshold_at_half_rejects :
    approveSignal (1/2) = false ∧ decisionThreshold ≤ (1/2 : ℚ) := by
  constructor
  · norm_num [approveSignal, decisionThreshold]
  · norm_num [decisionThreshold]

/-- C4 (amended): the decision policy of the code is a pure function of p
returning approve if and only if p is strictly greater than the 0.5
threshold; at that threshold p = 0.49 yields reject, p = 0.50 yields
reject, and p = 0.51 yields approve. -/
theorem approve_iff_strictly_above_threshold :
    (∀ p : ℚ, approveSignal p = true ↔ decisionThreshold < p) ∧
    approveSignal (49/100) = false ∧
    approveSignal (1/2) = false ∧
    approveSignal (51/100) = true := by
  refine ⟨fun p => ?_, by norm_num [approveSignal, decisionThreshold],
    by norm_num [approveSignal, decisionThreshold],
    by norm_num [approveSignal, decisionThreshold]⟩
  simp [approveSignal]

/-- C10: the graph built by the simplified variant
(`train_gatekeeper_simple.py`) ignores its declared (1,6) input entirely:
for every input tensor value x its evaluation yields the constant 0.7 in
a (1,1) tensor, produced by a Constant node fed through an Identity
node. -/
theorem gatekeeper_simple_always_point_seven :
    (∀ x : Mat ℚ, evalGraph id gatekeeper_simple_graph x = some [[7/10]]) ∧
    (gatekeeper_simple_graph.gnodes.map fun n => n.opType) = ["Constant", "Identity"] ∧
    (gatekeeper_simple_graph.gnodes.map fun n => n.constValue) = [some [[7/10]], none] ∧
    gatekeeper_simple_graph.ginputs =
      [{ tname := "x", dtype := "FLOAT", dims := [some 1, some 6] }] ∧
    gatekeeper_simple_graph.goutputs =
      [{ tname := "y", dtype := "FLOAT", dims := [some 1, some 1] }] :=
  ⟨fun _ => rfl, rfl, rfl, rfl, rfl⟩

/-- C2: for every input FeatureVector of length 4 and any weight and bias
values, evaluating the `create_model` DecisionGraph (with exact real
softmax semantics) yields a probability pair whose two values sum to 1.0
within 1e-6 (in fact exactly). -/
theorem softmax_output_pair_sums_to_one
    (w00 w01 w10 w11 w20 w21 w30 w31 b0 b1 x0 x1 x2 x3 : ℝ) :
    ∃ p0 p1 : ℝ,
      evalGraph Real.exp
        (create_model_graph [[w00, w01], [w10, w11], [w20, w21], [w30, w31]]
          [[b0, b1]]) [[x0, x1, x2, x3]] = some [[p0, p1]] ∧
      |p0 + p1 - 1| ≤ 1 / 1000000 := by
  refine ⟨_, _, rfl, ?_⟩
  have key : ∀ a b : ℝ, 0 < a → 0 < b →
      |a / (a + (b + 0)) + b / (a + (b + 0)) - 1| ≤ 1 / 1000000 := by
    intro a b ha hb
    have hs : a + b ≠ 0 := by positivity
    rw [div_add_div_same, add_zero, div_self hs]
    norm_num
  exact key _ _ (Real.exp_pos _) (Real.exp_pos _)

/-- C5 counterexample: with the dataset file absent from both
`ml/data_export.csv` and `data_export.csv`, `train_gatekeeper.py` `main`
returns early: no synthetic dataset is substituted, no training runs and
no artifact is produced — and the one synthetic generator in the
repository (`create_onnx_model.py`) declares 1000 rows, not 100. -/
theorem missing_dataset_aborts :
    train_gatekeeper_main none none "ml/gatekeeper_v1.onnx"
      (fun m => Except.ok (convert_sklearn_model (create_model_graph [m.coef] [[m.intercept]])))
      = RunOutcome.abortedMissingDataset ∧
    make_classification_args.nSamples = 1000 :=
  ⟨rfl, rfl⟩

/-- C5 (amended): when the dataset file is absent the pipeline
(`train_gatekeeper.py`) aborts with an instruction instead of
substituting synthetic data, for every output path and every conversion;
the synthetic generation in `create_onnx_model.py` is unconditional (it
never reads a dataset file) and declares 1000 rows with fixed seed 42. -/
theorem missing_dataset_no_fallback (outputPath : String)
    (conversion : FittedModel → Except String (ModelDef ℚ)) :
    train_gatekeeper_main none none outputPath conversion
      = RunOutcome.abortedMissingDataset ∧
    make_classification_args =
      { nSamples := 1000, nFeatures := 6, nInformative := 6,
        nRedundant := 0, nClustersPerClass := 1, randomState := 42 } :=
  ⟨rfl, rfl⟩

/-- C6 counterexample: on a held-out partition holding only the positive
class, the Trainer's metric step raises (sklearn's `roc_auc_score` throws
`ValueError` and `train_gatekeeper.py` does not catch it), refuting "does
not raise an exception". -/
theorem one_class_holdout_raises :
    metrics_step [true, true, true] [1/2, 1/3, 2/3] =
      MetricsResult.raised
        "Only one class present in y_true. ROC AUC score is not defined in that case." :=
  rfl

/-- C6 (amended): whenever the held-out labels contain only one class, the
Trainer's metric step raises the AUC-undefined error — aborting the run —
rather than reporting any numeric AUC value (in particular never a
fabricated 1.0 or 0.0). -/
theorem one_class_holdout_never_numeric (yTest : List Bool) (scores : List ℚ)
    (h : (yTest.all (fun b => b) || yTest.all (fun b => !b)) = true) :
    metrics_step yTest scores =
      MetricsResult.raised
        "Only one class present in y_true. ROC AUC score is not defined in that case." := by
  simp [metrics_step, roc_auc_score, h]

/-- Witness for `one_class_holdout_never_numeric` at the concrete one-class
held-out labels `[true, true]`. -/
theorem one_class_holdout_never_numeric_witness :
    (([true, true].all (fun b => b) || [true, true].all (fun b => !b)) = true) ∧
    metrics_step [true, true] [0, 1] =
      MetricsResult.raised
        "Only one class present in y_true. ROC AUC score is not defined in that case." :=
  ⟨by decide, one_class_holdout_never_numeric [true, true] [0, 1] (by decide)⟩

/-- C7 counterexample: the fallback file written on serialization failure
is the raw bytes `PLACEHOLDER_MODEL`; it is not a serialized model and
carries no producer-metadata field (`producerField` is `none`), so it is
not distinguishable from a genuine artifact *via the producer-metadata
field* as the claim states. -/
theorem fallback_has_no_producer_field :
    producerField (export_step (Except.error "conversion failed")) = none :=
  rfl

/-- C7 (amended): if graph serialization fails for any reason, the writer
still produces a file at the caller-specified target path, containing the
fixed raw bytes `PLACEHOLDER_MODEL`; that fallback is distinguishable
from a genuine trained artifact by its content — it is not a serialized
model at all, so it lacks the producer-metadata field a genuine
`convert_sklearn` artifact carries. -/
theorem fallback_writes_placeholder (outputPath msg : String) (g : GraphDef ℚ) :
    export_write outputPath (Except.error msg)
      = (outputPath, FileBytes.raw "PLACEHOLDER_MODEL") ∧
    producerField (export_step (Except.error msg)) = none ∧
    producerField (export_step (Except.ok (convert_sklearn_model g)))
      = some skl2onnx_producer :=
  ⟨rfl, rfl, rfl⟩

/-- C8 counterexample: at the concrete output path and contents below,
neither writer follows a write-then-rename discipline:
`train_gatekeeper.py` writes directly at the final path, and
`create_valid_onnx.py` saves at the final path and then appends padding
to it, a reader between the two operations observing the unpadded
content. -/
theorem artifact_writes_not_atomic :
    atomicWriteThenRename "ml/gatekeeper_v1.onnx"
      (train_gatekeeper_write_trace "ml/gatekeeper_v1.onnx" [0, 1]) = false ∧
    atomicWriteThenRename "ml/gatekeeper_v1.onnx"
      (create_valid_onnx_write_trace [0, 1] [2]) = false ∧
    fileAfter "ml/gatekeeper_v1.onnx"
      (List.take 1 (create_valid_onnx_write_trace [0, 1] [2])) = some [0, 1] ∧
    fileAfter "ml/gatekeeper_v1.onnx" (create_valid_onnx_write_trace [0, 1] [2])
      = some [0, 1, 2] := by
  decide

/-- C8 (amended): the ModelArtifact is written in place, not atomically:
`train_gatekeeper.py` performs a single direct write at the final path
(no temp file, no rename), and `create_valid_onnx.py` appends padding
after its initial save at the final path, so for any nonempty padding a
reader of the final path between save and append observes content
differing from the final content. -/
theorem artifact_written_in_place (outputPath : String) (bytes mb pb : List Nat)
    (hpb : pb ≠ []) :
    train_gatekeeper_write_trace outputPath bytes
      = [FsOp.writeFile outputPath bytes] ∧
    atomicWriteThenRename outputPath
      (train_gatekeeper_write_trace outputPath bytes) = false ∧
    fileAfter "ml/gatekeeper_v1.onnx"
      (List.take 1 (create_valid_onnx_write_trace mb pb)) = some mb ∧
    fileAfter "ml/gatekeeper_v1.onnx" (create_valid_onnx_write_trace mb pb)
      = some (mb ++ pb) ∧
    some mb ≠ some (mb ++ pb) := by
  refine ⟨rfl, ?_, ?_, ?_, ?_⟩
  · simp [atomicWriteThenRename, train_gatekeeper_write_trace]
  · simp [fileAfter, create_valid_onnx_write_trace]
  · simp [fileAfter, create_valid_onnx_write_trace]
  · intro h
    have h2 : mb = mb ++ pb := Option.some.inj h
    have h3 := congrArg List.length h2
    simp [List.length_append] at h3
    exact hpb h3

/-- Witness for `artifact_written_in_place` at concrete path and bytes. -/
theorem artifact_written_in_place_witness :
    (([2] : List Nat) ≠ []) ∧
    (train_gatekeeper_write_trace "ml/gatekeeper_v1.onnx" [0]
      = [FsOp.writeFile "ml/gatekeeper_v1.onnx" [0]] ∧
    atomicWriteThenRename "ml/gatekeeper_v1.onnx"
      (train_gatekeeper_write_trace "ml/gatekeeper_v1.onnx" [0]) = false ∧
    fileAfter "ml/gatekeeper_v1.onnx"
      (List.take 1 (create_valid_onnx_write_trace [1] [2])) = some [1] ∧
    fileAfter "ml/gatekeeper_v1.onnx" (create_valid_onnx_write_trace [1] [2])
      = some ([1] ++ [2]) ∧
    some [1] ≠ some ([1] ++ [2])) :=
  ⟨by decide, artifact_written_in_place "ml/gatekeeper_v1.onnx" [0] [1] [2] (by decide)⟩

/-- C9: the Trainer is deterministic: its output is a function of the
dataset alone — the split seed is the literal 42 and neither the split
nor the fit consults ambient entropy — so two runs on the same dataset,
seed and split fraction produce identical per-feature coefficients and
intercept. -/
theorem trainer_two_runs_identical (e1 e2 : Nat) (data : Dataset) :
    run_trainer e1 data = run_trainer e2 data ∧
    (run_trainer e1 data).coef = (run_trainer e2 data).coef ∧
    (run_trainer e1 data).intercept = (run_trainer e2 data).intercept :=
  ⟨rfl, rfl, rfl⟩

end OceanView
